import Mathlib

/-!
Verification of the LuaFramework bridge (eigeen/LuaFramework).

Shallow embedding of:
* `src/luaf-include/luaframework/API.hpp` — the `luaf::Api` singleton façade
  over the capability table (`CoreAPIParam`), its `initialize`/`get` state
  machine, and the forwarding calls `log_to_logger` / `add_core_function`.
* `src/d3d11/dllmain.cpp` and `src/hid/dllmain.cpp` — the attachment
  bootstrap (`DllMain` at `DLL_PROCESS_ATTACH`); the two files' `DllMain`
  bodies are textually identical, so one embedding covers both.

Modelling conventions:
* C++ pointers are `Option` values (`none` = `nullptr`) or `Nat` addresses
  where only identity matters (function pointers).
* The static singleton `Api::s_instance` is threaded as explicit state
  `ApiState`; a C++ `throw` becomes an `Except.error` value paired with the
  state as it stands when the throw happens.
* A call that crosses the capability-table boundary is embedded as the tuple
  of arguments the table's entry point receives, since the table is an
  external collaborator whose behaviour the repository does not define.
* OS side effects of `DllMain` (LoadLibraryW, SetDefaultDllDirectories,
  AddDllDirectory, MessageBoxW) are recorded in an effect structure; the
  environment (executable path, module list, result of `fs::canonical`,
  success of the load) is an explicit input.
-/

namespace LuaFramework

/-! ## Capability table side: argument tuples crossing the ABI boundary -/

/-- Log levels of `luaf::Api::Level` with their source `uint32_t` values. -/
inductive Level where
  | Trace
  | Debug
  | Info
  | Warn
  | Error
deriving DecidableEq, Repr

/-- The numeric value of each level, as in the C++ enum
(`Trace = 0, Debug = 1, Info = 2, Warn = 3, Error = 4`). -/
def Level.toUInt32 : Level → Nat
  | .Trace => 0
  | .Debug => 1
  | .Info => 2
  | .Warn => 3
  | .Error => 4

/-- The argument triple received by the table's `log` entry point
(`void (*log)(uint32_t, const char*, uint32_t)`): level value, the bytes at
the message data pointer, and the third (`uint32_t`) argument. -/
structure LogArgs where
  level : Nat
  msgData : String
  lenArg : Nat
deriving DecidableEq, Repr

/-- Embedding of `Api::log_to_logger(Level level, std::string_view msg)`,
whose body is `m_param->log(level, msg.data(), 0);` — it forwards the level,
the message data pointer, and the literal constant `0` as third argument. -/
def Api.log_to_logger (level : Level) (msg : String) : LogArgs :=
  { level := level.toUInt32, msgData := msg, lenArg := 0 }

/-- The argument triple received by the table's `add_core_function` entry
point (`void (*add_core_function)(const char*, uint32_t, const void*)`):
the bytes at the name data pointer, the `uint32_t` length argument, and the
function pointer (modelled as a `Nat` address). -/
structure AddCoreFunctionArgs where
  nameData : String
  nameLenArg : Nat
  funPtr : Nat
deriving DecidableEq, Repr

/-- Embedding of `Api::add_core_function(std::string_view name, TFunc* fun)`,
whose body is `m_param->add_core_function(name.data(), 0, fun);` — it
forwards the name data pointer, the literal constant `0` as the length
argument, and the function pointer. -/
def Api.add_core_function (name : String) (fn : Nat) : AddCoreFunctionArgs :=
  { nameData := name, nameLenArg := 0, funPtr := fn }

/-! ## The Api singleton state machine -/

/-- An `Api` instance holds the table pointer it was constructed with
(`const CoreAPIParam* m_param`); the pointer is modelled as a `Nat` address
(the null case is handled before construction, in `initialize`). -/
structure ApiInstance where
  m_param : Nat
deriving DecidableEq, Repr

/-- The static singleton `Api::s_instance` (`std::unique_ptr<Api>`):
`none` is the empty pointer, `some inst` the constructed instance. -/
abbrev ApiState := Option ApiInstance

/-- The `std::runtime_error` values thrown by `Api::initialize` / `Api::get`,
identified by their message. -/
inductive ApiError where
  | paramNull
  | alreadyInitialized
  | notInitialized
deriving DecidableEq, Repr

/-- Embedding of `Api::initialize(const CoreAPIParam* param)`: throws
"param is null" when `param == nullptr`, then throws "API already
initialized" when `s_instance != nullptr`, otherwise constructs the
singleton and returns a reference to it. The returned pair is
(result, state of `s_instance` after the call). -/
def Api.initialize (param : Option Nat) (s : ApiState) :
    Except ApiError ApiInstance × ApiState :=
  match param with
  | none => (Except.error ApiError.paramNull, s)
  | some p =>
    match s with
    | some _ => (Except.error ApiError.alreadyInitialized, s)
    | none =>
      let inst : ApiInstance := { m_param := p }
      (Except.ok inst, some inst)

/-- Embedding of `Api::get()`: throws "API not initialized" when
`s_instance == nullptr`, otherwise returns the singleton unchanged. -/
def Api.get (s : ApiState) : Except ApiError ApiInstance × ApiState :=
  match s with
  | none => (Except.error ApiError.notInitialized, s)
  | some inst => (Except.ok inst, some inst)

/-! ## Attachment bootstrap (`DllMain` of d3d11/hid forwarding stubs) -/

/-- `const auto MODULE_NAME = L"lua_framework.dll"` from both dllmain.cpp. -/
def MODULE_NAME : String := "lua_framework.dll"

/-- `const auto EXPECT_EXE_NAME = L"MonsterHunterWorld.exe"` from both
dllmain.cpp. -/
def EXPECT_EXE_NAME : String := "MonsterHunterWorld.exe"

/-- Embedding of `ContainsModule(modules, moduleName)`:
`std::find(modules.begin(), modules.end(), moduleName) != modules.end()`,
i.e. exact string membership in the enumerated module list. -/
def ContainsModule (modules : List String) (moduleName : String) : Bool :=
  modules.contains moduleName

/-- Whether `pat` occurs as a contiguous run starting at some position of
the character list `l`. -/
def listContainsInfix (pat : List Char) : List Char → Bool
  | [] => pat.isEmpty
  | c :: cs => pat.isPrefixOf (c :: cs) || listContainsInfix pat cs

/-- Embedding of `std::wstring::find(pat) != std::wstring::npos`:
whether `pat` occurs as a contiguous substring of `s`. -/
def wstringContains (s pat : String) : Bool :=
  listContainsInfix pat.toList s.toList

/-- The characters after the last path separator: `acc` accumulates the
current component in reverse and is reset at each separator. -/
def fileNameChars : List Char → List Char → List Char
  | [], acc => acc.reverse
  | c :: cs, acc =>
    if c == '/' || c == '\\' then fileNameChars cs []
    else fileNameChars cs (c :: acc)

/-- The file-name component of a path: everything after the last path
separator. This follows the spec's words ("the current process's own
executable path; if its name does not match the expected host executable"),
for comparison with the source's check, which is a substring test on the
whole path rather than an equality test on this component. -/
def exeFileName (path : String) : String :=
  String.mk (fileNameChars path.toList [])

/-- The environment a `DLL_PROCESS_ATTACH` attempt observes:
the current executable's full path (`wil::GetModuleFileNameW`), the module
list (`GetCurrentProcessModules`), the outcome of
`fs::canonical("lua_framework/bin")` (`none` when it throws), and whether
`LoadLibraryW(MODULE_NAME)` succeeds. -/
structure DllEnv where
  exePath : String
  modules : List String
  canonicalResult : Option String
  loadSucceeds : Bool
deriving DecidableEq, Repr

/-- The observable effects of one `DllMain` invocation: the `BOOL` return
value and the number/arguments of the OS calls it performs. -/
structure DllEffects where
  returnValue : Bool
  loadLibraryCalls : Nat
  setDefaultDllDirectoriesCalls : Nat
  addDllDirectoryCalls : List String
  messageBoxCalls : Nat
deriving DecidableEq, Repr

/-- The effect record of an invocation that performs no OS calls and
returns `TRUE`. -/
def DllEffects.inert : DllEffects :=
  { returnValue := true
    loadLibraryCalls := 0
    setDefaultDllDirectoriesCalls := 0
    addDllDirectoryCalls := []
    messageBoxCalls := 0 }

/-- Embedding of `AddDllPath(path)`: if the path is empty it returns without
effect; otherwise it calls `SetDefaultDllDirectories` once and
`AddDllDirectory(path)` once. Result: (SetDefaultDllDirectories call count,
AddDllDirectory arguments). -/
def AddDllPath (path : String) : Nat × List String :=
  if path = "" then (0, [])
  else (1, [path])

/-- Embedding of the `DLL_PROCESS_ATTACH` case of `DllMain` (identical in
`src/d3d11/dllmain.cpp` and `src/hid/dllmain.cpp`):
1. if the executable path does not contain `EXPECT_EXE_NAME`, return TRUE;
2. if `MODULE_NAME` is in the enumerated module list, return TRUE;
3. try `fs::canonical("lua_framework/bin")` and `AddDllPath` on its result,
   swallowing any exception;
4. call `LoadLibraryW(MODULE_NAME)`; on failure show one `MessageBoxW`;
5. return TRUE in every case. -/
def dllMainProcessAttach (env : DllEnv) : DllEffects :=
  if wstringContains env.exePath EXPECT_EXE_NAME = false then
    DllEffects.inert
  else if ContainsModule env.modules MODULE_NAME then
    DllEffects.inert
  else
    let pathEffects :=
      match env.canonicalResult with
      | some absPath => AddDllPath absPath
      | none => (0, [])
    if env.loadSucceeds then
      { returnValue := true
        loadLibraryCalls := 1
        setDefaultDllDirectoriesCalls := pathEffects.1
        addDllDirectoryCalls := pathEffects.2
        messageBoxCalls := 0 }
    else
      { returnValue := true
        loadLibraryCalls := 1
        setDefaultDllDirectoriesCalls := pathEffects.1
        addDllDirectoryCalls := pathEffects.2
        messageBoxCalls := 1 }

/-- The `fdwReason` values `DllMain` switches on. -/
inductive DllReason where
  | processAttach
  | threadAttach
  | threadDetach
  | processDetach
deriving DecidableEq, Repr

/-- Embedding of the whole `DllMain` switch: only `DLL_PROCESS_ATTACH` does
anything observable; the other reasons fall through to `return TRUE`. -/
def DllMain (reason : DllReason) (env : DllEnv) : DllEffects :=
  match reason with
  | .processAttach => dllMainProcessAttach env
  | _ => DllEffects.inert

/-! ## Theorems about the claims -/

/-- C1: the claim that `Api::log_to_logger(level, msg)` passes the message's
byte length as the third argument fails on the code — at the concrete call
`log_to_logger(Info, "hello")` the table's `log` entry point receives the
level value `2`, the message bytes `"hello"`, and the constant `0` as third
argument, although the message's byte length is `5`. -/
theorem log_to_logger_passes_zero_length :
    Api.log_to_logger Level.Info "hello" =
      { level := 2, msgData := "hello", lenArg := 0 } ∧
    "hello".utf8ByteSize = 5 ∧
    (Api.log_to_logger Level.Info "hello").lenArg ≠ "hello".utf8ByteSize := by
  refine ⟨rfl, rfl, ?_⟩
  decide

/-- C2: the claim that `Api::add_core_function(name, fun)` forwards the
name's explicit byte length fails on the code — at the concrete call
`add_core_function("add", fun)` (function pointer modelled as address `7`)
the table's registrar receives the name bytes, the constant `0` as the
length argument, and the pointer, although the name's byte length is `3`. -/
theorem add_core_function_passes_zero_length :
    Api.add_core_function "add" 7 =
      { nameData := "add", nameLenArg := 0, funPtr := 7 } ∧
    "add".utf8ByteSize = 3 ∧
    (Api.add_core_function "add" 7).nameLenArg ≠ "add".utf8ByteSize := by
  refine ⟨rfl, rfl, ?_⟩
  decide

/-- C3: whenever the enumerated module list already contains the core
module name `lua_framework.dll`, the `DLL_PROCESS_ATTACH` attempt performs
zero `LoadLibraryW` calls and `DllMain` returns `TRUE`. -/
theorem already_attached_is_noop (env : DllEnv)
    (h : ContainsModule env.modules MODULE_NAME = true) :
    (DllMain DllReason.processAttach env).loadLibraryCalls = 0 ∧
    (DllMain DllReason.processAttach env).returnValue = true := by
  unfold DllMain dllMainProcessAttach
  rcases hc : wstringContains env.exePath EXPECT_EXE_NAME with _ | _ <;>
    simp [hc, h, DllEffects.inert]

/-- C3 witness: a process whose executable path contains the host name and
whose module list already holds `lua_framework.dll` performs no load. -/
theorem already_attached_is_noop_witness :
    (DllMain DllReason.processAttach
      { exePath := "C:/Games/MonsterHunterWorld.exe"
        modules := ["C:/Windows/System32/ntdll.dll", "lua_framework.dll"]
        canonicalResult := some "C:/Games/lua_framework/bin"
        loadSucceeds := true }).loadLibraryCalls = 0 ∧
    (DllMain DllReason.processAttach
      { exePath := "C:/Games/MonsterHunterWorld.exe"
        modules := ["C:/Windows/System32/ntdll.dll", "lua_framework.dll"]
        canonicalResult := some "C:/Games/lua_framework/bin"
        loadSucceeds := true }).returnValue = true :=
  already_attached_is_noop _ (by decide)

/-- C4: `Api::initialize` errors on a null table, errors whenever the
singleton is already initialized (regardless of its argument), and
otherwise constructs the singleton holding the given table and returns it
as the new singleton handle. -/
theorem initialize_spec (param : Option Nat) (s : ApiState) :
    (param = none → Api.initialize param s = (Except.error ApiError.paramNull, s)) ∧
    (∀ inst : ApiInstance, s = some inst → param ≠ none →
      Api.initialize param s = (Except.error ApiError.alreadyInitialized, s)) ∧
    (∀ p : Nat, param = some p → s = none →
      Api.initialize param s =
        (Except.ok { m_param := p }, some { m_param := p })) := by
  refine ⟨?_, ?_, ?_⟩
  · intro hp
    subst hp
    rfl
  · intro inst hs hp
    rcases param with _ | p
    · exact absurd rfl hp
    · subst hs
      rfl
  · intro p hp hs
    subst hp
    subst hs
    rfl

/-- C4 witness: `initialize` at the concrete table address `5` on the
uninitialized state constructs the singleton, a second call fails, and a
call with a null table fails. -/
theorem initialize_spec_witness :
    Api.initialize (some 5) none =
      (Except.ok { m_param := 5 }, some { m_param := 5 }) ∧
    Api.initialize (some 6) (some { m_param := 5 }) =
      (Except.error ApiError.alreadyInitialized, some { m_param := 5 }) ∧
    Api.initialize none none = (Except.error ApiError.paramNull, none) :=
  ⟨(initialize_spec (some 5) none).2.2 5 rfl rfl,
   (initialize_spec (some 6) (some { m_param := 5 })).2.1 { m_param := 5 } rfl
     (by simp),
   (initialize_spec none none).1 rfl⟩

/-- C5: `Api::get` errors on the uninitialized state; it never changes the
singleton state; and after any successful `initialize` it returns exactly
the handle `initialize` returned, with the state unchanged. -/
theorem get_spec (p : Nat) (s s' : ApiState) (inst : ApiInstance) :
    Api.get none = (Except.error ApiError.notInitialized, none) ∧
    (Api.get s).2 = s ∧
    ( Api.initialize (some p) s = (Except.ok inst, s') →
      Api.get s' = (Except.ok inst, s')) := by
  refine ⟨rfl, ?_, ?_⟩
  · rcases s with _ | i <;> rfl
  · intro hinit
    rcases s with _ | i
    · simp only [ Api.initialize, Prod.mk.injEq, Except.ok.injEq] at hinit
      obtain ⟨h1, h2⟩ := hinit
      subst h1
      subst h2
      rfl
    · exact absurd (congrArg Prod.fst hinit) (by simp [ Api.initialize])

/-- C5 witness: after `initialize` at table address `5`, `get` returns the
same handle and leaves the state unchanged; before it, `get` errors. -/
theorem get_spec_witness :
    Api.get none = (Except.error ApiError.notInitialized, none) ∧
    (Api.get (some { m_param := 5 })).2 = some { m_param := 5 } ∧
    Api.get (some { m_param := 5 }) =
      (Except.ok { m_param := 5 }, some { m_param := 5 }) :=
  ⟨(get_spec 5 none (some { m_param := 5 }) { m_param := 5 }).1,
   (get_spec 5 (some { m_param := 5 }) none { m_param := 5 }).2.1,
   (get_spec 5 none (some { m_param := 5 }) { m_param := 5 }).2.2 rfl⟩

/-- C6 counterexample: the claim as stated — an executable-name mismatch
implies zero side effects — is false on the code. At the attachment attempt
whose executable path is `C:/MonsterHunterWorld.exe/tools/editor.exe`, the
executable's name is `editor.exe`, which does not match the expected host
name, yet the attempt performs a search-path extension and one
`LoadLibraryW` call, because the code's host check is a substring test on
the whole path and the directory component matches. -/
theorem name_mismatch_still_loads :
    exeFileName "C:/MonsterHunterWorld.exe/tools/editor.exe" = "editor.exe" ∧
    exeFileName "C:/MonsterHunterWorld.exe/tools/editor.exe" ≠ EXPECT_EXE_NAME ∧
    (DllMain DllReason.processAttach
      { exePath := "C:/MonsterHunterWorld.exe/tools/editor.exe"
        modules := []
        canonicalResult := some "C:/MonsterHunterWorld.exe/lua_framework/bin"
        loadSucceeds := true }).loadLibraryCalls = 1 ∧
    (DllMain DllReason.processAttach
      { exePath := "C:/MonsterHunterWorld.exe/tools/editor.exe"
        modules := []
        canonicalResult := some "C:/MonsterHunterWorld.exe/lua_framework/bin"
        loadSucceeds := true }).addDllDirectoryCalls =
      ["C:/MonsterHunterWorld.exe/lua_framework/bin"] := by
  refine ⟨rfl, by decide, rfl, rfl⟩

/-- C6 (amended): when the executable's full path does not contain the
expected host name as a substring, the `DLL_PROCESS_ATTACH` attempt performs
zero side effects — no `SetDefaultDllDirectories`, no `AddDllDirectory`, no
`LoadLibraryW`, no `MessageBoxW` — and returns `TRUE`. -/
theorem host_mismatch_no_side_effects (env : DllEnv)
    (h : wstringContains env.exePath EXPECT_EXE_NAME = false) :
    DllMain DllReason.processAttach env = DllEffects.inert := by
  unfold DllMain dllMainProcessAttach
  simp [h]

/-- C6 witness: a process named `explorer.exe` observes an inert attach. -/
theorem host_mismatch_no_side_effects_witness :
    DllMain DllReason.processAttach
      { exePath := "C:/Windows/explorer.exe"
        modules := []
        canonicalResult := some "C:/Games/lua_framework/bin"
        loadSucceeds := false } = DllEffects.inert :=
  host_mismatch_no_side_effects _ (by decide)

/-- C7: in the expected host, with the core module not yet mapped, a failed
`LoadLibraryW` produces exactly one diagnostic dialog and `DllMain` still
returns `TRUE`. -/
theorem load_failure_shows_one_dialog (env : DllEnv)
    (hHost : wstringContains env.exePath EXPECT_EXE_NAME = true)
    (hNotLoaded : ContainsModule env.modules MODULE_NAME = false)
    (hLoadFail : env.loadSucceeds = false) :
    (DllMain DllReason.processAttach env).messageBoxCalls = 1 ∧
    (DllMain DllReason.processAttach env).returnValue = true := by
  unfold DllMain dllMainProcessAttach
  simp [hHost, hNotLoaded, hLoadFail]

/-- C7 witness: in the host, with no prior mapping and a failing load, one
dialog is shown and `TRUE` is returned. -/
theorem load_failure_shows_one_dialog_witness :
    (DllMain DllReason.processAttach
      { exePath := "C:/Games/MonsterHunterWorld.exe"
        modules := ["C:/Windows/System32/ntdll.dll"]
        canonicalResult := some "C:/Games/lua_framework/bin"
        loadSucceeds := false }).messageBoxCalls = 1 ∧
    (DllMain DllReason.processAttach
      { exePath := "C:/Games/MonsterHunterWorld.exe"
        modules := ["C:/Windows/System32/ntdll.dll"]
        canonicalResult := some "C:/Games/lua_framework/bin"
        loadSucceeds := false }).returnValue = true :=
  load_failure_shows_one_dialog _ (by decide) (by decide) rfl

/-- C8: in the expected host, with the core module not yet mapped, a
throwing `fs::canonical` is swallowed: no search-path call is made yet
`LoadLibraryW` is still called exactly once and `DllMain` returns `TRUE`. -/
theorem canonical_failure_nonfatal (env : DllEnv)
    (hHost : wstringContains env.exePath EXPECT_EXE_NAME = true)
    (hNotLoaded : ContainsModule env.modules MODULE_NAME = false)
    (hCanon : env.canonicalResult = none) :
    (DllMain DllReason.processAttach env).loadLibraryCalls = 1 ∧
    (DllMain DllReason.processAttach env).returnValue = true ∧
    (DllMain DllReason.processAttach env).setDefaultDllDirectoriesCalls = 0 ∧
    (DllMain DllReason.processAttach env).addDllDirectoryCalls = [] := by
  unfold DllMain dllMainProcessAttach
  rcases hl : env.loadSucceeds with _ | _ <;>
    simp [hHost, hNotLoaded, hCanon, hl]

/-- C8 witness: with `fs::canonical` throwing, attachment proceeds to one
`LoadLibraryW` call and returns `TRUE`. -/
theorem canonical_failure_nonfatal_witness :
    (DllMain DllReason.processAttach
      { exePath := "C:/Games/MonsterHunterWorld.exe"
        modules := []
        canonicalResult := none
        loadSucceeds := true }).loadLibraryCalls = 1 ∧
    (DllMain DllReason.processAttach
      { exePath := "C:/Games/MonsterHunterWorld.exe"
        modules := []
        canonicalResult := none
        loadSucceeds := true }).returnValue = true :=
  ⟨(canonical_failure_nonfatal _ (by decide) (by decide) rfl).1,
   (canonical_failure_nonfatal _ (by decide) (by decide) rfl).2.1⟩

/-- C9: the host-identity check is a substring test on the executable's
full path: whenever the path contains `MonsterHunterWorld.exe` anywhere (and
the core module is not already mapped) attachment proceeds — the search-path
extension runs on the canonicalized directory and `LoadLibraryW` is called —
and when the path contains no such substring the attempt is inert. -/
theorem host_check_is_substring_test (env : DllEnv) :
    (wstringContains env.exePath EXPECT_EXE_NAME = true →
      ContainsModule env.modules MODULE_NAME = false →
      (DllMain DllReason.processAttach env).loadLibraryCalls = 1 ∧
      (∀ absPath : String, env.canonicalResult = some absPath → absPath ≠ "" →
        (DllMain DllReason.processAttach env).addDllDirectoryCalls = [absPath])) ∧
    (wstringContains env.exePath EXPECT_EXE_NAME = false →
      DllMain DllReason.processAttach env = DllEffects.inert) := by
  constructor
  · intro hHost hNotLoaded
    constructor
    · unfold DllMain dllMainProcessAttach
      rcases hl : env.loadSucceeds with _ | _ <;>
        simp [hHost, hNotLoaded, hl]
    · intro absPath hCanon hne
      unfold DllMain dllMainProcessAttach AddDllPath
      rcases hl : env.loadSucceeds with _ | _ <;>
        simp [hHost, hNotLoaded, hCanon, hl, hne]
  · intro hHost
    unfold DllMain dllMainProcessAttach
    simp [hHost]

/-- C9 witness: a path containing `MonsterHunterWorld.exe` only as a
directory component still triggers the load, and a path without the
substring is inert. -/
theorem host_check_is_substring_test_witness :
    (DllMain DllReason.processAttach
      { exePath := "C:/MonsterHunterWorld.exe/tools/editor.exe"
        modules := []
        canonicalResult := some "C:/MonsterHunterWorld.exe/lua_framework/bin"
        loadSucceeds := true }).loadLibraryCalls = 1 ∧
    DllMain DllReason.processAttach
      { exePath := "C:/Games/monsterhunterworld.exe"
        modules := []
        canonicalResult := none
        loadSucceeds := true } = DllEffects.inert :=
  ⟨((host_check_is_substring_test
      { exePath := "C:/MonsterHunterWorld.exe/tools/editor.exe"
        modules := []
        canonicalResult := some "C:/MonsterHunterWorld.exe/lua_framework/bin"
        loadSucceeds := true }).1 (by decide) (by decide)).1,
   (host_check_is_substring_test
      { exePath := "C:/Games/monsterhunterworld.exe"
        modules := []
        canonicalResult := none
        loadSucceeds := true }).2 (by decide)⟩

/-- C10: a failed `Api::initialize` is atomic — on any error the singleton
state is exactly what it was before the call; after `initialize(null)` fails
on the uninitialized state, `get` still errors and a subsequent
`initialize` with a non-null table still succeeds. -/
theorem initialize_failure_atomic (param : Option Nat) (s : ApiState)
    (e : ApiError) (p : Nat) :
    (( Api.initialize param s).1 = Except.error e →
      ( Api.initialize param s).2 = s) ∧
    Api.get ( Api.initialize none none).2 =
      (Except.error ApiError.notInitialized, none) ∧
    ( Api.initialize (some p) ( Api.initialize none none).2).1 =
      Except.ok { m_param := p } := by
  refine ⟨?_, rfl, rfl⟩
  intro herr
  rcases param with _ | q
  · rfl
  · rcases s with _ | i
    · exact absurd herr (by simp [ Api.initialize])
    · rfl

/-- C10 witness: `initialize(null)` on the already-initialized state leaves
the state unchanged, and the recovery sequence after a failed
`initialize(null)` behaves as stated. -/
theorem initialize_failure_atomic_witness :
    ( Api.initialize none (some { m_param := 5 })).2 = some { m_param := 5 } ∧
    Api.get ( Api.initialize none none).2 =
      (Except.error ApiError.notInitialized, none) ∧
    ( Api.initialize (some 9) ( Api.initialize none none).2).1 =
      Except.ok { m_param := 9 } :=
  ⟨(initialize_failure_atomic none (some { m_param := 5 })
      ApiError.paramNull 9).1 rfl,
   (initialize_failure_atomic none (some { m_param := 5 })
      ApiError.paramNull 9).2.1,
   (initialize_failure_atomic none (some { m_param := 5 })
      ApiError.paramNull 9).2.2⟩

end LuaFramework
